import Mathlib

/-!
Shallow embedding of the XFS online quota scrubber (fs/xfs/scrub/quota.c).

The side-effecting finding sink (xchk_fblock_set_corrupt / _warning, which
set bits in sc->sm->sm_flags) is modelled as a writer: each embedded function
returns the list of findings it emits, tagged with the file offset passed at
the call site.  Lock primitives are modelled as emitted lock events.  The two
live samplers (fatal_signal polling in xchk_should_terminate and the percpu
inode counter read in percpu_counter_sum) are modelled as streams indexed by
a per-scrub call counter threaded through a small World state.  External
collaborators (xfs_bmapi_read, xchk_metadata_inode_forks, the dquot
iterator, the mount geometry and verifier predicates) live in an Env record.
-/

/-- Outcome classification of one emitted finding, tagged with the
XFS_DATA_FORK file offset it concerns. -/
inductive Finding where
  | corrupt (offset : Nat)
  | warning (offset : Nat)
deriving DecidableEq, Repr

def Finding.isCorrupt : Finding → Bool
  | .corrupt _ => true
  | .warning _ => false

/-- Error codes that the embedded control flow distinguishes.  Every other
errno coming back from a collaborator is collapsed into ioerr. -/
inductive Err where
  | eintr
  | ecanceled
  | ioerr
deriving DecidableEq, Repr

/-- Lock-protocol events emitted by the embedded code, in program order. -/
inductive LockEvent where
  | dqunlock
  | dqlock
  | ilockShared
  | iunlockShared
  | iunlockExcl
deriving DecidableEq, Repr

/-- One accounting domain of a dquot: struct xfs_dquot_res. -/
structure XfsDquotRes where
  hardlimit : Nat
  softlimit : Nat
  count : Nat
  timer : Nat
deriving DecidableEq, Repr

/-- The fields of struct xfs_dquot that the scrubber reads. -/
structure XfsDquot where
  q_id : Nat
  q_fileoffset : Nat
  q_blkno : Nat
  q_blk : XfsDquotRes
  q_ino : XfsDquotRes
  q_rtb : XfsDquotRes
deriving DecidableEq, Repr

/-- An extent mapping (struct xfs_bmbt_irec); the written flag stands for
the xfs_bmap_is_written_extent predicate on the mapping. -/
structure Irec where
  br_startoff : Nat
  br_blockcount : Nat
  br_startblock : Nat
  written : Bool
deriving DecidableEq, Repr

/-- struct xchk_quota_info: the running last_id tracker. -/
structure QuotaInfo where
  last_id : Nat
deriving DecidableEq, Repr

/-- Call counters for the two live samplers polled during one scrub. -/
structure World where
  termCalls : Nat
  icountCalls : Nat
deriving DecidableEq, Repr

/-- The mount, quota-info geometry, external collaborators and live-sampler
streams visible to the scrubber. -/
structure Env where
  sb_dblocks : Nat
  sb_rblocks : Nat
  maxicount : Nat
  hasReflink : Bool
  dqperchunk : Nat
  verify_fileoff : Nat → Bool
  verify_fsbno : Nat → Bool
  fsbToDaddr : Nat → Nat
  bmapi_read : Nat → Except Err (Option Irec)
  icountSamples : Nat → Nat
  shouldTerm : Nat → Bool
  metadata_inode_forks : List Finding × Option Err
  extents : List Irec
  records : List XfsDquot
  iterEnd : Option Err

/-- Result of one xchk_quota_item call. -/
structure ItemResult where
  sqi : QuotaInfo
  w : World
  findings : List Finding
  events : List LockEvent
  err : Option Err
deriving DecidableEq, Repr

/-- Result of the data-fork extent scan. -/
structure ScanResult where
  w : World
  findings : List Finding
  err : Option Err
deriving DecidableEq, Repr

/-- Result of a whole xchk_quota run. -/
structure RunResult where
  w : World
  findings : List Finding
  events : List LockEvent
  err : Option Err
deriving DecidableEq, Repr

/-- xchk_should_terminate: poll the fatal-signal stream, consuming one slot. -/
def xchk_should_terminate (env : Env) (w : World) : Bool × World :=
  (env.shouldTerm w.termCalls, { w with termCalls := w.termCalls + 1 })

/-- percpu_counter_sum on mp->m_icount: read the live inode-count stream,
consuming one sample slot. -/
def percpu_counter_sum (env : Env) (w : World) : Nat × World :=
  (env.icountSamples w.icountCalls, { w with icountCalls := w.icountCalls + 1 })

/-- xchk_quota_item_bmap: there is a written block backing this dquot,
right?  Emits corrupt findings at the given offset; returns an error only
when xfs_bmapi_read fails. -/
def xchk_quota_item_bmap (env : Env) (dq : XfsDquot) (offset : Nat) :
    List Finding × Option Err :=
  if env.verify_fileoff offset = false then
    ([Finding.corrupt offset], none)
  else if dq.q_fileoffset ≠ offset then
    ([Finding.corrupt offset], none)
  else
    match env.bmapi_read offset with
    | .error e => ([], some e)
    | .ok none => ([Finding.corrupt offset], none)
    | .ok (some irec) =>
        ((if env.verify_fsbno irec.br_startblock = false then
            [Finding.corrupt offset] else []) ++
         (if env.fsbToDaddr irec.br_startblock ≠ dq.q_blkno then
            [Finding.corrupt offset] else []) ++
         (if irec.written = false then [Finding.corrupt offset] else []),
         none)

/-- xchk_quota_item_timer: complain if a quota timer is incorrectly set. -/
def xchk_quota_item_timer (offset : Nat) (res : XfsDquotRes) : List Finding :=
  if (res.softlimit ≠ 0 ∧ res.count > res.softlimit) ∨
     (res.hardlimit ≠ 0 ∧ res.count > res.hardlimit) then
    (if res.timer = 0 then [Finding.corrupt offset] else [])
  else
    (if res.timer ≠ 0 then [Finding.corrupt offset] else [])

/-- xchk_quota_item: scrub the fields in an individual quota item.
prevCorrupt is the OFLAG_CORRUPT bit accumulated by everything that ran
before this call; the returned err is ECANCELED when the bit is set at the
end of the call (the code's out: label). -/
def xchk_quota_item (env : Env) (sqi : QuotaInfo) (dq : XfsDquot)
    (prevCorrupt : Bool) (w : World) : ItemResult :=
  let w1 := (xchk_should_terminate env w).2
  if (xchk_should_terminate env w).1 then
    ⟨sqi, w1, [], [], some Err.eintr⟩
  else
    -- drop the dquot lock, take the ILOCK, retake the dquot lock
    let offset := dq.q_id / env.dqperchunk
    let f1 : List Finding :=
      if dq.q_id ≠ 0 ∧ dq.q_id ≤ sqi.last_id then [Finding.corrupt offset] else []
    match xchk_quota_item_bmap env dq offset with
    | (f2, some e) =>
        ⟨⟨dq.q_id⟩, w1, f1 ++ f2,
         [LockEvent.dqunlock, LockEvent.ilockShared, LockEvent.dqlock,
          LockEvent.iunlockShared], some e⟩
    | (f2, none) =>
        let f3 : List Finding :=
          (if dq.q_blk.hardlimit > env.sb_dblocks then [Finding.warning offset] else []) ++
          (if dq.q_blk.softlimit > dq.q_blk.hardlimit then [Finding.corrupt offset] else []) ++
          (if dq.q_ino.hardlimit > env.maxicount then [Finding.warning offset] else []) ++
          (if dq.q_ino.softlimit > dq.q_ino.hardlimit then [Finding.corrupt offset] else []) ++
          (if dq.q_rtb.hardlimit > env.sb_rblocks then [Finding.warning offset] else []) ++
          (if dq.q_rtb.softlimit > dq.q_rtb.hardlimit then [Finding.corrupt offset] else [])
        let fs_icount := (percpu_counter_sum env w1).1
        let w2 := (percpu_counter_sum env w1).2
        let f4 : List Finding :=
          if env.hasReflink then
            (if env.sb_dblocks < dq.q_blk.count then [Finding.warning offset] else []) ++
            (if env.sb_rblocks < dq.q_rtb.count then [Finding.warning offset] else [])
          else
            (if env.sb_dblocks < dq.q_blk.count then [Finding.corrupt offset] else []) ++
            (if env.sb_rblocks < dq.q_rtb.count then [Finding.corrupt offset] else [])
        let f5 : List Finding :=
          if dq.q_ino.count > fs_icount then [Finding.corrupt offset] else []
        let f6 : List Finding :=
          if dq.q_id = 0 then []
          else
            (if dq.q_blk.hardlimit ≠ 0 ∧ dq.q_blk.count > dq.q_blk.hardlimit then
               [Finding.warning offset] else []) ++
            (if dq.q_ino.hardlimit ≠ 0 ∧ dq.q_ino.count > dq.q_ino.hardlimit then
               [Finding.warning offset] else []) ++
            (if dq.q_rtb.hardlimit ≠ 0 ∧ dq.q_rtb.count > dq.q_rtb.hardlimit then
               [Finding.warning offset] else []) ++
            xchk_quota_item_timer offset dq.q_blk ++
            xchk_quota_item_timer offset dq.q_ino ++
            xchk_quota_item_timer offset dq.q_rtb
        let fs := f1 ++ f2 ++ f3 ++ f4 ++ f5 ++ f6
        ⟨⟨dq.q_id⟩, w2, fs,
         [LockEvent.dqunlock, LockEvent.ilockShared, LockEvent.dqlock,
          LockEvent.iunlockShared],
         if prevCorrupt || fs.any Finding.isCorrupt then some Err.ecanceled else none⟩

/-- XFS_DQ_ID_MAX: the largest 32-bit dquot id. -/
def XFS_DQ_ID_MAX : Nat := 2 ^ 32 - 1

/-- Width of the u64 file-offset arithmetic. -/
def U64 : Nat := 2 ^ 64

/-- The per-extent corruption condition of xchk_quota_data_fork:
delalloc/unwritten extents or blocks mapped above the highest quota id.
The last covered offset is the u64 value br_startoff + br_blockcount - 1. -/
def quotaExtentBad (maxOff : Nat) (irec : Irec) : Bool :=
  !irec.written || decide (irec.br_startoff > maxOff) ||
    decide ((irec.br_startoff + irec.br_blockcount + (U64 - 1)) % U64 > maxOff)

/-- The extent loop of xchk_quota_data_fork, walking the data fork with
for_each_xfs_iext and polling xchk_should_terminate between extents. -/
def xchk_quota_data_fork_loop (env : Env) (maxOff : Nat) :
    World → List Irec → ScanResult
  | w, [] => ⟨w, [], none⟩
  | w, irec :: rest =>
      let w1 := (xchk_should_terminate env w).2
      if (xchk_should_terminate env w).1 then ⟨w1, [], some Err.eintr⟩
      else if quotaExtentBad maxOff irec then
        ⟨w1, [Finding.corrupt irec.br_startoff], none⟩
      else
        xchk_quota_data_fork_loop env maxOff w1 rest

/-- xchk_quota_data_fork: invoke the external fork scrubber, then check for
data fork problems that apply only to quota files. -/
def xchk_quota_data_fork (env : Env) (w : World) : ScanResult :=
  let f0 := env.metadata_inode_forks.1
  match env.metadata_inode_forks.2 with
  | some e => ⟨w, f0, some e⟩
  | none =>
      if f0.any Finding.isCorrupt then ⟨w, f0, none⟩
      else
        let maxOff := XFS_DQ_ID_MAX / env.dqperchunk
        let r := xchk_quota_data_fork_loop env maxOff w env.extents
        ⟨r.w, f0 ++ r.findings, r.err⟩

/-- The dquot-iteration loop of xchk_quota: pull records from the ordered
iterator, scrub each, and break on the first nonzero error from an item. -/
def xchk_quota_loop (env : Env) :
    QuotaInfo → Bool → World → List XfsDquot → ItemResult
  | sqi, _, w, [] => ⟨sqi, w, [], [], env.iterEnd⟩
  | sqi, prevCorrupt, w, dq :: rest =>
      let r := xchk_quota_item env sqi dq prevCorrupt w
      match r.err with
      | some e => ⟨r.sqi, r.w, r.findings, r.events, some e⟩
      | none =>
          let r2 := xchk_quota_loop env r.sqi
            (prevCorrupt || r.findings.any Finding.isCorrupt) r.w rest
          ⟨r2.sqi, r2.w, r.findings ++ r2.findings, r.events ++ r2.events, r2.err⟩

/-- xchk_quota: scrub all of a quota type's items.  ECANCELED coming back
from the item loop (corruption found) is converted to success. -/
def xchk_quota (env : Env) (w : World) : RunResult :=
  let d := xchk_quota_data_fork env w
  match d.err with
  | some e => ⟨d.w, d.findings, [], some e⟩
  | none =>
      if d.findings.any Finding.isCorrupt then ⟨d.w, d.findings, [], none⟩
      else
        let r := xchk_quota_loop env ⟨0⟩ (d.findings.any Finding.isCorrupt) d.w
          env.records
        ⟨r.w, d.findings ++ r.findings, LockEvent.iunlockExcl :: r.events,
         if r.err = some Err.ecanceled then none else r.err⟩

/-- Trace predicate: the shared file-level lock is never acquired at a
moment when the record (dquot) lock is held, starting from the given
dquot-lock state. -/
def noIlockWhileDq : Bool → List LockEvent → Bool
  | _, [] => true
  | _, LockEvent.dqlock :: rest => noIlockWhileDq true rest
  | _, LockEvent.dqunlock :: rest => noIlockWhileDq false rest
  | dqHeld, LockEvent.ilockShared :: rest => !dqHeld && noIlockWhileDq dqHeld rest
  | dqHeld, _ :: rest => noIlockWhileDq dqHeld rest

/-- A benign concrete environment for witnesses: one record per block,
identity block translation, every offset representable, every mapping a
single written block at physical block 100 + offset. -/
def env0 : Env where
  sb_dblocks := 1000
  sb_rblocks := 1000
  maxicount := 1000
  hasReflink := false
  dqperchunk := 1
  verify_fileoff := fun _ => true
  verify_fsbno := fun _ => true
  fsbToDaddr := fun b => b
  bmapi_read := fun off => Except.ok (some ⟨off, 1, 100 + off, true⟩)
  icountSamples := fun _ => 1000
  shouldTerm := fun _ => false
  metadata_inode_forks := ([], none)
  extents := []
  records := []
  iterEnd := none

/-- A dquot whose fields are all consistent with env0. -/
def dqClean (i : Nat) : XfsDquot :=
  ⟨i, i, 100 + i, ⟨0, 0, 0, 0⟩, ⟨0, 0, 0, 0⟩, ⟨0, 0, 0, 0⟩⟩

/-- Concrete records and environments used by the witnesses and
counterexamples below.  dqC1: nonzero-id record whose block count exceeds
its nonzero soft limit with no grace timer set. -/
def dqC1 : XfsDquot := ⟨7, 7, 107, ⟨0, 50, 100, 0⟩, ⟨0, 0, 0, 0⟩, ⟨0, 0, 0, 0⟩⟩

/-- Default record (id 0) whose block count exceeds the data-block capacity. -/
def dqC2 : XfsDquot := ⟨0, 0, 100, ⟨0, 0, 2000, 0⟩, ⟨0, 0, 0, 0⟩, ⟨0, 0, 0, 0⟩⟩

/-- Record with a block soft limit of 1 and a block hard limit of 0. -/
def dqC3 : XfsDquot := ⟨7, 7, 107, ⟨0, 1, 0, 0⟩, ⟨0, 0, 0, 0⟩, ⟨0, 0, 0, 0⟩⟩

/-- Same as dqC3 except the block soft limit is zeroed. -/
def dqC3v : XfsDquot := ⟨7, 7, 107, ⟨0, 0, 0, 0⟩, ⟨0, 0, 0, 0⟩, ⟨0, 0, 0, 0⟩⟩

/-- Record sequence with ids 5, 0, 3: a nonzero id below an earlier nonzero
id, separated by the default record. -/
def env5cx : Env := { env0 with records := [dqClean 5, dqClean 0, dqClean 3] }

/-- Environment whose file offsets are all unrepresentable and whose
mappings are all unwritten. -/
def env6cx : Env :=
  { env0 with verify_fileoff := fun _ => false,
              bmapi_read := fun off => Except.ok (some ⟨off, 1, 100 + off, false⟩) }

/-- The unwritten mapping env6cx resolves at offset 7. -/
def irec6cx : Irec := ⟨7, 1, 107, false⟩

/-- Record whose own backing offset (9) disagrees with its storage offset (7). -/
def dqC6 : XfsDquot := ⟨7, 9, 107, ⟨0, 0, 0, 0⟩, ⟨0, 0, 0, 0⟩, ⟨0, 0, 0, 0⟩⟩

/-- Data fork with a written extent, then an unwritten extent at offset 5,
then another written extent. -/
def env7w : Env :=
  { env0 with extents := [⟨0, 1, 100, true⟩, ⟨5, 1, 105, false⟩, ⟨6, 1, 106, true⟩] }

/-- Record whose block soft limit exceeds its block hard limit: scrubbing it
yields a Corrupt finding. -/
def dqC8 : XfsDquot := ⟨1, 1, 101, ⟨0, 5, 0, 0⟩, ⟨0, 0, 0, 0⟩, ⟨0, 0, 0, 0⟩⟩

/-- A corrupt record followed by a clean one. -/
def env8w : Env := { env0 with records := [dqC8, dqClean 9] }

/-- Two clean records under a changing live inode counter: the first sample
is 100, all later samples are 200. -/
def dq9a : XfsDquot := ⟨1, 1, 101, ⟨0, 0, 0, 0⟩, ⟨0, 0, 50, 0⟩, ⟨0, 0, 0, 0⟩⟩

def dq9b : XfsDquot := ⟨2, 2, 102, ⟨0, 0, 0, 0⟩, ⟨0, 0, 150, 0⟩, ⟨0, 0, 0, 0⟩⟩

def env9cx : Env :=
  { env0 with records := [dq9a, dq9b],
              icountSamples := fun n => if n = 0 then 100 else 200 }

/-- Environment in which no physical start block is a valid fs block. -/
def envBadFsbno : Env := { env0 with verify_fsbno := fun _ => false }

/-- Record whose inode count 2000 exceeds the sampled live inode count. -/
def dqC9 : XfsDquot := ⟨3, 3, 103, ⟨0, 0, 0, 0⟩, ⟨0, 0, 2000, 0⟩, ⟨0, 0, 0, 0⟩⟩

/-- Characterization of one xchk_quota_item call that is not cancelled at
entry and whose bmap lookup returns no error: every rule group contributes
its findings, in program order, and the call ends with ECANCELED exactly
when the accumulated corruption flag is set at the out: label. -/
theorem xchk_quota_item_run (env : Env) (sqi : QuotaInfo) (dq : XfsDquot)
    (prevCorrupt : Bool) (w : World)
    (hterm : env.shouldTerm w.termCalls = false)
    (hbmap : (xchk_quota_item_bmap env dq (dq.q_id / env.dqperchunk)).2 = none) :
    xchk_quota_item env sqi dq prevCorrupt w =
      let offset := dq.q_id / env.dqperchunk
      let fs : List Finding :=
        (if dq.q_id ≠ 0 ∧ dq.q_id ≤ sqi.last_id then [Finding.corrupt offset] else []) ++
        (xchk_quota_item_bmap env dq offset).1 ++
        ((if dq.q_blk.hardlimit > env.sb_dblocks then [Finding.warning offset] else []) ++
         (if dq.q_blk.softlimit > dq.q_blk.hardlimit then [Finding.corrupt offset] else []) ++
         (if dq.q_ino.hardlimit > env.maxicount then [Finding.warning offset] else []) ++
         (if dq.q_ino.softlimit > dq.q_ino.hardlimit then [Finding.corrupt offset] else []) ++
         (if dq.q_rtb.hardlimit > env.sb_rblocks then [Finding.warning offset] else []) ++
         (if dq.q_rtb.softlimit > dq.q_rtb.hardlimit then [Finding.corrupt offset] else [])) ++
        (if env.hasReflink then
           (if env.sb_dblocks < dq.q_blk.count then [Finding.warning offset] else []) ++
           (if env.sb_rblocks < dq.q_rtb.count then [Finding.warning offset] else [])
         else
           (if env.sb_dblocks < dq.q_blk.count then [Finding.corrupt offset] else []) ++
           (if env.sb_rblocks < dq.q_rtb.count then [Finding.corrupt offset] else [])) ++
        (if dq.q_ino.count > env.icountSamples w.icountCalls then
           [Finding.corrupt offset] else []) ++
        (if dq.q_id = 0 then []
         else
           (if dq.q_blk.hardlimit ≠ 0 ∧ dq.q_blk.count > dq.q_blk.hardlimit then
              [Finding.warning offset] else []) ++
           (if dq.q_ino.hardlimit ≠ 0 ∧ dq.q_ino.count > dq.q_ino.hardlimit then
              [Finding.warning offset] else []) ++
           (if dq.q_rtb.hardlimit ≠ 0 ∧ dq.q_rtb.count > dq.q_rtb.hardlimit then
              [Finding.warning offset] else []) ++
           xchk_quota_item_timer offset dq.q_blk ++
           xchk_quota_item_timer offset dq.q_ino ++
           xchk_quota_item_timer offset dq.q_rtb)
      ⟨⟨dq.q_id⟩, ⟨w.termCalls + 1, w.icountCalls + 1⟩, fs,
       [LockEvent.dqunlock, LockEvent.ilockShared, LockEvent.dqlock,
        LockEvent.iunlockShared],
       if prevCorrupt || fs.any Finding.isCorrupt then some Err.ecanceled else none⟩ := by
  rcases hb : xchk_quota_item_bmap env dq (dq.q_id / env.dqperchunk) with ⟨fb, eb⟩
  rw [hb] at hbmap
  simp only at hbmap
  subst hbmap
  simp only [xchk_quota_item, xchk_should_terminate, percpu_counter_sum, hterm, hb,
    Bool.false_eq_true, if_false, List.append_assoc]

/-- The lock-event trace of an item call that is not cancelled at entry does
not depend on what the checks find or on whether the bmap lookup fails. -/
theorem xchk_quota_item_events (env : Env) (sqi : QuotaInfo) (dq : XfsDquot)
    (prevCorrupt : Bool) (w : World)
    (hterm : env.shouldTerm w.termCalls = false) :
    (xchk_quota_item env sqi dq prevCorrupt w).events =
      [LockEvent.dqunlock, LockEvent.ilockShared, LockEvent.dqlock,
       LockEvent.iunlockShared] := by
  rcases hb : xchk_quota_item_bmap env dq (dq.q_id / env.dqperchunk) with ⟨fb, eb⟩
  cases eb <;> simp [xchk_quota_item, xchk_should_terminate, hterm, hb]

/-- An item call that is not cancelled at entry overwrites last_id with the
id of the record it was handed, whatever that id is. -/
theorem xchk_quota_item_sqi (env : Env) (sqi : QuotaInfo) (dq : XfsDquot)
    (prevCorrupt : Bool) (w : World)
    (hterm : env.shouldTerm w.termCalls = false) :
    (xchk_quota_item env sqi dq prevCorrupt w).sqi = ⟨dq.q_id⟩ := by
  rcases hb : xchk_quota_item_bmap env dq (dq.q_id / env.dqperchunk) with ⟨fb, eb⟩
  cases eb <;> simp [xchk_quota_item, xchk_should_terminate, hterm, hb]

/-- C1: for each resource domain, the timer rule emits a Corrupt finding at
the record offset exactly when the grace timer mismatches the overage
condition (timer set although count exceeds neither a nonzero soft limit
nor a nonzero hard limit, or such an overage with the timer clear); and for
the default record (id 0) the timer rule produces no finding: the outcome
of scrubbing an id-0 record is entirely independent of its three timer
fields. -/
theorem C1_timer_consistency (env : Env) (sqi : QuotaInfo) (dq : XfsDquot)
    (prevCorrupt : Bool) (w : World) (offset : Nat) (res : XfsDquotRes)
    (t1 t2 t3 : Nat)
    (hterm : env.shouldTerm w.termCalls = false)
    (hbmap : (xchk_quota_item_bmap env dq (dq.q_id / env.dqperchunk)).2 = none) :
    (xchk_quota_item_timer offset res =
      if (res.timer ≠ 0 ∧
            ¬((res.softlimit ≠ 0 ∧ res.count > res.softlimit) ∨
              (res.hardlimit ≠ 0 ∧ res.count > res.hardlimit))) ∨
         (((res.softlimit ≠ 0 ∧ res.count > res.softlimit) ∨
           (res.hardlimit ≠ 0 ∧ res.count > res.hardlimit)) ∧ res.timer = 0)
      then [Finding.corrupt offset] else []) ∧
    (dq.q_id ≠ 0 →
      ((dq.q_blk.timer ≠ 0 ∧
          ¬((dq.q_blk.softlimit ≠ 0 ∧ dq.q_blk.count > dq.q_blk.softlimit) ∨
            (dq.q_blk.hardlimit ≠ 0 ∧ dq.q_blk.count > dq.q_blk.hardlimit))) ∨
       (((dq.q_blk.softlimit ≠ 0 ∧ dq.q_blk.count > dq.q_blk.softlimit) ∨
         (dq.q_blk.hardlimit ≠ 0 ∧ dq.q_blk.count > dq.q_blk.hardlimit)) ∧
        dq.q_blk.timer = 0) →
      Finding.corrupt (dq.q_id / env.dqperchunk) ∈
        (xchk_quota_item env sqi dq prevCorrupt w).findings)) ∧
    (dq.q_id = 0 →
      xchk_quota_item env sqi
        { dq with q_blk := { dq.q_blk with timer := t1 },
                  q_ino := { dq.q_ino with timer := t2 },
                  q_rtb := { dq.q_rtb with timer := t3 } } prevCorrupt w =
      xchk_quota_item env sqi dq prevCorrupt w) := by
  have ha : ∀ (off : Nat) (r : XfsDquotRes), xchk_quota_item_timer off r =
      if (r.timer ≠ 0 ∧
            ¬((r.softlimit ≠ 0 ∧ r.count > r.softlimit) ∨
              (r.hardlimit ≠ 0 ∧ r.count > r.hardlimit))) ∨
         (((r.softlimit ≠ 0 ∧ r.count > r.softlimit) ∨
           (r.hardlimit ≠ 0 ∧ r.count > r.hardlimit)) ∧ r.timer = 0)
      then [Finding.corrupt off] else [] := by
    intro off r
    unfold xchk_quota_item_timer
    split_ifs <;> first | rfl | (exfalso; tauto)
  refine ⟨ha offset res, ?_, ?_⟩
  · intro hne hmis
    have hblk : xchk_quota_item_timer (dq.q_id / env.dqperchunk) dq.q_blk =
        [Finding.corrupt (dq.q_id / env.dqperchunk)] := by
      rw [ha]; exact if_pos hmis
    rw [xchk_quota_item_run env sqi dq prevCorrupt w hterm hbmap]
    simp [List.mem_append, hne, hblk]
  · intro h0
    obtain ⟨qid, qoff, qbl, ⟨bh, bs, bc, bt⟩, ⟨nh, ns, nc, nt⟩, ⟨rh, rs, rc, rt⟩⟩ := dq
    replace h0 : qid = 0 := h0
    subst h0
    have hb2 : ∀ off, xchk_quota_item_bmap env
        ⟨0, qoff, qbl, ⟨bh, bs, bc, t1⟩, ⟨nh, ns, nc, t2⟩, ⟨rh, rs, rc, t3⟩⟩ off =
        xchk_quota_item_bmap env
        ⟨0, qoff, qbl, ⟨bh, bs, bc, bt⟩, ⟨nh, ns, nc, nt⟩, ⟨rh, rs, rc, rt⟩⟩ off :=
      fun _ => rfl
    have hbmap2 : (xchk_quota_item_bmap env
        ⟨0, qoff, qbl, ⟨bh, bs, bc, t1⟩, ⟨nh, ns, nc, t2⟩, ⟨rh, rs, rc, t3⟩⟩
        ((0 : Nat) / env.dqperchunk)).2 = none := by
      rw [hb2]; exact hbmap
    show xchk_quota_item env sqi
        ⟨0, qoff, qbl, ⟨bh, bs, bc, t1⟩, ⟨nh, ns, nc, t2⟩, ⟨rh, rs, rc, t3⟩⟩
        prevCorrupt w =
      xchk_quota_item env sqi
        ⟨0, qoff, qbl, ⟨bh, bs, bc, bt⟩, ⟨nh, ns, nc, nt⟩, ⟨rh, rs, rc, rt⟩⟩
        prevCorrupt w
    rw [xchk_quota_item_run env sqi _ prevCorrupt w hterm hbmap2,
        xchk_quota_item_run env sqi _ prevCorrupt w hterm hbmap]
    simp only [hb2]
    simp

/-- Witness for C1: a concrete nonzero-id record whose block count 100
exceeds its nonzero soft limit 50 with no grace timer set is flagged
Corrupt at its storage offset 7. -/
theorem C1_timer_consistency_witness :
    Finding.corrupt 7 ∈ (xchk_quota_item env0 ⟨0⟩ dqC1 false ⟨0, 0⟩).findings :=
  (C1_timer_consistency env0 ⟨0⟩ dqC1 false ⟨0, 0⟩ 7 dqC1.q_blk 0 0 0 rfl
    (by decide)).2.1 (by decide) (by decide)

/-- C2: for every record, including the default id-0 record: block or
realtime-block usage exceeding the corresponding filesystem capacity yields
a Warning finding when the reflink (overcommit) feature is enabled and a
Corrupt finding when it is not, while inode usage exceeding the sampled
inode count yields a Corrupt finding regardless of the feature flag. -/
theorem C2_overcommit_classification (env : Env) (sqi : QuotaInfo)
    (dq : XfsDquot) (prevCorrupt : Bool) (w : World)
    (hterm : env.shouldTerm w.termCalls = false)
    (hbmap : (xchk_quota_item_bmap env dq (dq.q_id / env.dqperchunk)).2 = none) :
    (env.hasReflink = true → env.sb_dblocks < dq.q_blk.count →
      Finding.warning (dq.q_id / env.dqperchunk) ∈
        (xchk_quota_item env sqi dq prevCorrupt w).findings) ∧
    (env.hasReflink = true → env.sb_rblocks < dq.q_rtb.count →
      Finding.warning (dq.q_id / env.dqperchunk) ∈
        (xchk_quota_item env sqi dq prevCorrupt w).findings) ∧
    (env.hasReflink = false → env.sb_dblocks < dq.q_blk.count →
      Finding.corrupt (dq.q_id / env.dqperchunk) ∈
        (xchk_quota_item env sqi dq prevCorrupt w).findings) ∧
    (env.hasReflink = false → env.sb_rblocks < dq.q_rtb.count →
      Finding.corrupt (dq.q_id / env.dqperchunk) ∈
        (xchk_quota_item env sqi dq prevCorrupt w).findings) ∧
    (dq.q_ino.count > env.icountSamples w.icountCalls →
      Finding.corrupt (dq.q_id / env.dqperchunk) ∈
        (xchk_quota_item env sqi dq prevCorrupt w).findings) := by
  have hrun := xchk_quota_item_run env sqi dq prevCorrupt w hterm hbmap
  refine ⟨?_, ?_, ?_, ?_, ?_⟩
  · intro hrf hov; rw [hrun]; simp [hrf, hov]
  · intro hrf hov; rw [hrun]; simp [hrf, hov]
  · intro hrf hov; rw [hrun]; simp [hrf, hov]
  · intro hrf hov; rw [hrun]; simp [hrf, hov]
  · intro hov; rw [hrun]; simp [hov]

/-- Witness for C2: the default record (id 0) with block count 2000 above
the 1000-block capacity of a non-reflink filesystem is flagged Corrupt. -/
theorem C2_overcommit_classification_witness :
    Finding.corrupt 0 ∈ (xchk_quota_item env0 ⟨0⟩ dqC2 false ⟨0, 0⟩).findings :=
  (C2_overcommit_classification env0 ⟨0⟩ dqC2 false ⟨0, 0⟩ rfl (by decide)).2.2.1
    rfl (by decide)

/-- C3 counterexample: dqC3 has a block hard limit of 0 and a block soft
limit of 1.  The claim says that with hardLimit = 0 the limit-ordering rule
emits no finding, yet scrubbing this record emits a Corrupt finding at its
offset 7; the variant dqC3v with the soft limit zeroed (and every other
field identical) produces no finding at all, so the Corrupt finding comes
from the soft-limit-above-hard-limit comparison and from nothing else. -/
theorem C3_limit_ordering_counterexample :
    dqC3.q_blk.hardlimit = 0 ∧
    dqC3.q_blk.softlimit > dqC3.q_blk.hardlimit ∧
    (xchk_quota_item env0 ⟨0⟩ dqC3 false ⟨0, 0⟩).findings = [Finding.corrupt 7] ∧
    (xchk_quota_item env0 ⟨0⟩ dqC3v false ⟨0, 0⟩).findings = [] := by decide

/-- C3 (amended): the limit-ordering rule emits a Corrupt finding whenever
softLimit exceeds hardLimit, including when hardLimit = 0; the rule applies
to every record id and to each of the three domains. -/
theorem C3_limit_ordering_amended (env : Env) (sqi : QuotaInfo)
    (dq : XfsDquot) (prevCorrupt : Bool) (w : World)
    (hterm : env.shouldTerm w.termCalls = false)
    (hbmap : (xchk_quota_item_bmap env dq (dq.q_id / env.dqperchunk)).2 = none) :
    (dq.q_blk.softlimit > dq.q_blk.hardlimit →
      Finding.corrupt (dq.q_id / env.dqperchunk) ∈
        (xchk_quota_item env sqi dq prevCorrupt w).findings) ∧
    (dq.q_ino.softlimit > dq.q_ino.hardlimit →
      Finding.corrupt (dq.q_id / env.dqperchunk) ∈
        (xchk_quota_item env sqi dq prevCorrupt w).findings) ∧
    (dq.q_rtb.softlimit > dq.q_rtb.hardlimit →
      Finding.corrupt (dq.q_id / env.dqperchunk) ∈
        (xchk_quota_item env sqi dq prevCorrupt w).findings) := by
  have hrun := xchk_quota_item_run env sqi dq prevCorrupt w hterm hbmap
  refine ⟨?_, ?_, ?_⟩ <;> intro hv <;> rw [hrun] <;> simp [hv]

/-- Witness for the amended C3: the soft-1-hard-0 record is flagged Corrupt. -/
theorem C3_limit_ordering_amended_witness :
    Finding.corrupt 7 ∈ (xchk_quota_item env0 ⟨0⟩ dqC3 false ⟨0, 0⟩).findings :=
  (C3_limit_ordering_amended env0 ⟨0⟩ dqC3 false ⟨0, 0⟩ rfl (by decide)).1
    (by decide)

/-- C4: during record iteration the validator, handed a locked dquot by the
iterator, first drops the dquot lock, then acquires the shared file-level
ILOCK, then retakes the dquot lock, and releases the ILOCK again before the
lock-free invariant checks (which emit no lock events); consequently,
starting from a held dquot lock, the file-level lock is never acquired at a
moment when the dquot lock is held. -/
theorem C4_lock_protocol (env : Env) (sqi : QuotaInfo) (dq : XfsDquot)
    (prevCorrupt : Bool) (w : World)
    (hterm : env.shouldTerm w.termCalls = false) :
    (xchk_quota_item env sqi dq prevCorrupt w).events =
      [LockEvent.dqunlock, LockEvent.ilockShared, LockEvent.dqlock,
       LockEvent.iunlockShared] ∧
    noIlockWhileDq true (xchk_quota_item env sqi dq prevCorrupt w).events = true := by
  have h := xchk_quota_item_events env sqi dq prevCorrupt w hterm
  exact ⟨h, by rw [h]; decide⟩

/-- Witness for C4 on a concrete record. -/
theorem C4_lock_protocol_witness :
    (xchk_quota_item env0 ⟨0⟩ (dqClean 3) false ⟨0, 0⟩).events =
      [LockEvent.dqunlock, LockEvent.ilockShared, LockEvent.dqlock,
       LockEvent.iunlockShared] :=
  (C4_lock_protocol env0 ⟨0⟩ (dqClean 3) false ⟨0, 0⟩ rfl).1

/-- C5 counterexample: the record sequence has ids 5, 0, 3.  The third
record's id 3 is nonzero and below the previous nonzero id 5 seen during
the run, so the claim demands a Corrupt finding, but the scrub of this
sequence emits no finding at all: the id-0 record in between overwrote the
last_id tracker, so record 3 is compared against 0, not against 5. -/
theorem C5_ordering_counterexample :
    env5cx.records.map XfsDquot.q_id = [5, 0, 3] ∧
    (xchk_quota env5cx ⟨0, 0⟩).findings = [] ∧
    (xchk_quota env5cx ⟨0, 0⟩).err = none := by decide

/-- C5 (amended): the ordering check compares a record's id against the id
of the immediately preceding yielded record (the last_id tracker, which
every record, including the id-0 default record, overwrites; it starts at
0): a Corrupt finding is emitted at offset id / recordsPerBlock exactly
when the id is nonzero and at most last_id - for an otherwise-clean record
the corrupt findings of the item call are exactly [corrupt offset] under
that condition and exactly [] when the nonzero id exceeds last_id, so a
later nonzero id below an earlier nonzero id is not flagged once an id-0
record has overwritten the tracker - and a record with id 0 never triggers
the check: its scrub outcome does not depend on the tracker at all. -/
theorem C5_ordering_amended (env : Env) (sqi sqi2 : QuotaInfo) (dq : XfsDquot)
    (prevCorrupt : Bool) (w : World)
    (hterm : env.shouldTerm w.termCalls = false) :
    ((xchk_quota_item env sqi dq prevCorrupt w).sqi = ⟨dq.q_id⟩) ∧
    (dq.q_id ≠ 0 → dq.q_id ≤ sqi.last_id →
      Finding.corrupt (dq.q_id / env.dqperchunk) ∈
        (xchk_quota_item env sqi dq prevCorrupt w).findings) ∧
    (dq.q_id = 0 →
      xchk_quota_item env sqi dq prevCorrupt w =
        xchk_quota_item env sqi2 dq prevCorrupt w) ∧
    ((xchk_quota_item_bmap env dq (dq.q_id / env.dqperchunk)).2 = none →
      (xchk_quota_item_bmap env dq (dq.q_id / env.dqperchunk)).1 = [] →
      dq.q_id ≠ 0 → dq.q_id ≤ sqi.last_id →
      dq.q_blk.softlimit ≤ dq.q_blk.hardlimit →
      dq.q_ino.softlimit ≤ dq.q_ino.hardlimit →
      dq.q_rtb.softlimit ≤ dq.q_rtb.hardlimit →
      dq.q_blk.count ≤ env.sb_dblocks →
      dq.q_rtb.count ≤ env.sb_rblocks →
      dq.q_ino.count ≤ env.icountSamples w.icountCalls →
      xchk_quota_item_timer (dq.q_id / env.dqperchunk) dq.q_blk = [] →
      xchk_quota_item_timer (dq.q_id / env.dqperchunk) dq.q_ino = [] →
      xchk_quota_item_timer (dq.q_id / env.dqperchunk) dq.q_rtb = [] →
      (xchk_quota_item env sqi dq prevCorrupt w).findings.filter
        Finding.isCorrupt = [Finding.corrupt (dq.q_id / env.dqperchunk)]) ∧
    ((xchk_quota_item_bmap env dq (dq.q_id / env.dqperchunk)).2 = none →
      (xchk_quota_item_bmap env dq (dq.q_id / env.dqperchunk)).1 = [] →
      dq.q_id ≠ 0 → sqi.last_id < dq.q_id →
      dq.q_blk.softlimit ≤ dq.q_blk.hardlimit →
      dq.q_ino.softlimit ≤ dq.q_ino.hardlimit →
      dq.q_rtb.softlimit ≤ dq.q_rtb.hardlimit →
      dq.q_blk.count ≤ env.sb_dblocks →
      dq.q_rtb.count ≤ env.sb_rblocks →
      dq.q_ino.count ≤ env.icountSamples w.icountCalls →
      xchk_quota_item_timer (dq.q_id / env.dqperchunk) dq.q_blk = [] →
      xchk_quota_item_timer (dq.q_id / env.dqperchunk) dq.q_ino = [] →
      xchk_quota_item_timer (dq.q_id / env.dqperchunk) dq.q_rtb = [] →
      (xchk_quota_item env sqi dq prevCorrupt w).findings.filter
        Finding.isCorrupt = []) := by
  refine ⟨xchk_quota_item_sqi env sqi dq prevCorrupt w hterm, ?_, ?_, ?_, ?_⟩
  · intro hne hle
    rcases hb : xchk_quota_item_bmap env dq (dq.q_id / env.dqperchunk) with ⟨fb, eb⟩
    cases eb <;>
      simp [xchk_quota_item, xchk_should_terminate, percpu_counter_sum, hterm, hb,
        hne, hle]
  · intro h0
    rcases hb : xchk_quota_item_bmap env dq (dq.q_id / env.dqperchunk) with ⟨fb, eb⟩
    rw [h0] at hb
    simp only [Nat.zero_div] at hb
    cases eb <;>
      simp [xchk_quota_item, xchk_should_terminate, percpu_counter_sum, hterm, hb, h0]
    rw [h0]
    simp
  · intro hbm hb0 hne hle hsb hsi hsr hcb hcr hci ht1 ht2 ht3
    rw [xchk_quota_item_run env sqi dq prevCorrupt w hterm hbm]
    simp [hne, hle, hb0, ht1, ht2, ht3, Nat.not_lt.mpr hsb, Nat.not_lt.mpr hsi,
      Nat.not_lt.mpr hsr, Nat.not_lt.mpr hcb, Nat.not_lt.mpr hcr,
      Nat.not_lt.mpr hci, apply_ite (List.filter Finding.isCorrupt),
      Finding.isCorrupt, List.filter_append]
  · intro hbm hb0 hne hlt hsb hsi hsr hcb hcr hci ht1 ht2 ht3
    rw [xchk_quota_item_run env sqi dq prevCorrupt w hterm hbm]
    simp [hne, Nat.not_le.mpr hlt, hb0, ht1, ht2, ht3, Nat.not_lt.mpr hsb,
      Nat.not_lt.mpr hsi, Nat.not_lt.mpr hsr, Nat.not_lt.mpr hcb,
      Nat.not_lt.mpr hcr, Nat.not_lt.mpr hci,
      apply_ite (List.filter Finding.isCorrupt), Finding.isCorrupt,
      List.filter_append]

/-- Witness for the amended C5: the clean record with id 3 is flagged with
exactly one Corrupt finding while last_id is 5 and with none while last_id
is 2. -/
theorem C5_ordering_amended_witness :
    ((xchk_quota_item env0 ⟨5⟩ (dqClean 3) false ⟨0, 0⟩).findings.filter
        Finding.isCorrupt = [Finding.corrupt 3]) ∧
    ((xchk_quota_item env0 ⟨2⟩ (dqClean 3) false ⟨0, 0⟩).findings.filter
        Finding.isCorrupt = []) :=
  ⟨(C5_ordering_amended env0 ⟨5⟩ ⟨0⟩ (dqClean 3) false ⟨0, 0⟩ rfl).2.2.2.1
      (by decide) (by decide) (by decide) (by decide) (by decide) (by decide)
      (by decide) (by decide) (by decide) (by decide) (by decide) (by decide)
      (by decide),
   (C5_ordering_amended env0 ⟨2⟩ ⟨0⟩ (dqClean 3) false ⟨0, 0⟩ rfl).2.2.2.2
      (by decide) (by decide) (by decide) (by decide) (by decide) (by decide)
      (by decide) (by decide) (by decide) (by decide) (by decide) (by decide)
      (by decide)⟩

/-- C6 counterexample: dqC6 under env6cx violates three of the claimed
conditions at offset 7 - the offset is not representable, the record's own
backing offset 9 disagrees with it, and the resolved mapping is unwritten -
yet the validator emits exactly one finding: it stops at the first failed
check instead of evaluating all five independently. -/
theorem C6_bmap_counterexample :
    env6cx.verify_fileoff 7 = false ∧
    dqC6.q_fileoffset ≠ 7 ∧
    env6cx.bmapi_read 7 = Except.ok (some irec6cx) ∧
    irec6cx.written = false ∧
    xchk_quota_item_bmap env6cx dqC6 7 = ([Finding.corrupt 7], none) := by
  exact ⟨rfl, by decide, rfl, rfl, by decide⟩

/-- C6 (amended): the first three checks of the extent-backing validation
(representable offset, record backing offset agreement, lookup resolving
exactly one mapping) short-circuit - each emits its Corrupt finding and
returns at once - while the final three checks (valid physical block, block
number agreement, fully-written mapping) are evaluated independently, each
contributing its own finding. -/
theorem C6_bmap_short_circuit (env : Env) (dq : XfsDquot) (offset : Nat)
    (irec : Irec) (e : Err) :
    (env.verify_fileoff offset = false →
      xchk_quota_item_bmap env dq offset = ([Finding.corrupt offset], none)) ∧
    (env.verify_fileoff offset = true → dq.q_fileoffset ≠ offset →
      xchk_quota_item_bmap env dq offset = ([Finding.corrupt offset], none)) ∧
    (env.verify_fileoff offset = true → dq.q_fileoffset = offset →
      env.bmapi_read offset = Except.error e →
      xchk_quota_item_bmap env dq offset = ([], some e)) ∧
    (env.verify_fileoff offset = true → dq.q_fileoffset = offset →
      env.bmapi_read offset = Except.ok none →
      xchk_quota_item_bmap env dq offset = ([Finding.corrupt offset], none)) ∧
    (env.verify_fileoff offset = true → dq.q_fileoffset = offset →
      env.bmapi_read offset = Except.ok (some irec) →
      xchk_quota_item_bmap env dq offset =
        ((if env.verify_fsbno irec.br_startblock = false then
            [Finding.corrupt offset] else []) ++
         (if env.fsbToDaddr irec.br_startblock ≠ dq.q_blkno then
            [Finding.corrupt offset] else []) ++
         (if irec.written = false then [Finding.corrupt offset] else []),
         none)) := by
  refine ⟨?_, ?_, ?_, ?_, ?_⟩
  · intro h1; simp [xchk_quota_item_bmap, h1]
  · intro h1 h2; simp [xchk_quota_item_bmap, h1, h2]
  · intro h1 h2 h3; simp [xchk_quota_item_bmap, h1, h2, h3]
  · intro h1 h2 h3; simp [xchk_quota_item_bmap, h1, h2, h3]
  · intro h1 h2 h3; simp [xchk_quota_item_bmap, h1, h2, h3]

/-- Witness for the amended C6: a mismatched backing offset alone produces
the single finding of the second short-circuiting check. -/
theorem C6_bmap_short_circuit_witness :
    xchk_quota_item_bmap env0 dqC6 7 = ([Finding.corrupt 7], none) :=
  (C6_bmap_short_circuit env0 dqC6 7 irec6cx Err.ioerr).2.1 rfl (by decide)

/-- Characterization of the data-fork extent loop when no cancellation
signal fires: one Corrupt finding at the start offset of the first bad
extent, where the scan stops, or no finding at all when every extent is
good; the loop itself never produces an error. -/
theorem xchk_quota_data_fork_loop_run (env : Env) (maxOff : Nat)
    (hterm : ∀ n, env.shouldTerm n = false) :
    ∀ (exts : List Irec) (w : World),
      ((xchk_quota_data_fork_loop env maxOff w exts).findings =
        match exts.find? (quotaExtentBad maxOff) with
        | some irec => [Finding.corrupt irec.br_startoff]
        | none => []) ∧
      (xchk_quota_data_fork_loop env maxOff w exts).err = none := by
  intro exts
  induction exts with
  | nil => intro w; simp [xchk_quota_data_fork_loop]
  | cons irec rest ih =>
      intro w
      cases hbad : quotaExtentBad maxOff irec with
      | true =>
          simp [xchk_quota_data_fork_loop, xchk_should_terminate, hterm, hbad,
            List.find?]
      | false =>
          simp [xchk_quota_data_fork_loop, xchk_should_terminate, hterm, hbad,
            List.find?, ih]

/-- C7: the data-fork range check emits a Corrupt finding at the start
offset of the first extent that is not a fully-written mapping or whose
start or last covered offset exceeds XFS_DQ_ID_MAX / recordsPerBlock, and
stops scanning there; it emits nothing on an empty or fully compliant
extent list; and when it marks corruption, the whole scrub ends with no
lock events - per-record iteration is never entered - and no error. -/
theorem C7_data_fork_scan (env : Env) (w : World) (maxOff : Nat)
    (exts : List Irec) (e : Irec)
    (hterm : ∀ n, env.shouldTerm n = false) :
    (exts.find? (quotaExtentBad maxOff) = some e →
      (xchk_quota_data_fork_loop env maxOff w exts).findings =
        [Finding.corrupt e.br_startoff] ∧
      (xchk_quota_data_fork_loop env maxOff w exts).err = none) ∧
    (exts.find? (quotaExtentBad maxOff) = none →
      (xchk_quota_data_fork_loop env maxOff w exts).findings = [] ∧
      (xchk_quota_data_fork_loop env maxOff w exts).err = none) ∧
    (env.metadata_inode_forks = ([], none) →
      env.extents.find? (quotaExtentBad (XFS_DQ_ID_MAX / env.dqperchunk)) = some e →
      (xchk_quota env w).findings = [Finding.corrupt e.br_startoff] ∧
      (xchk_quota env w).events = [] ∧
      (xchk_quota env w).err = none) := by
  obtain ⟨h1, h2⟩ := xchk_quota_data_fork_loop_run env maxOff hterm exts w
  refine ⟨?_, ?_, ?_⟩
  · intro hf; rw [hf] at h1; exact ⟨h1, h2⟩
  · intro hf; rw [hf] at h1; exact ⟨h1, h2⟩
  · intro hfork hf
    obtain ⟨h3, h4⟩ := xchk_quota_data_fork_loop_run env
      (XFS_DQ_ID_MAX / env.dqperchunk) hterm env.extents w
    rw [hf] at h3
    refine ⟨?_, ?_, ?_⟩ <;>
      simp [xchk_quota, xchk_quota_data_fork, hfork, h3, h4, Finding.isCorrupt]

/-- Witness for C7: an unwritten extent at offset 5 halts the scrub with a
single Corrupt finding and no record iteration. -/
theorem C7_data_fork_scan_witness :
    (xchk_quota env7w ⟨0, 0⟩).findings = [Finding.corrupt 5] ∧
    (xchk_quota env7w ⟨0, 0⟩).events = [] ∧
    (xchk_quota env7w ⟨0, 0⟩).err = none :=
  (C7_data_fork_scan env7w ⟨0, 0⟩ 0 [] ⟨5, 1, 105, false⟩ (fun _ => rfl)).2.2 rfl
    (by decide)

/-- An ECANCELED-or-nothing shape for an ite over Option Err. -/
theorem err_ite_cases (c : Prop) [Decidable c] :
    (if c then some Err.ecanceled else none) = none ∨
    (if c then some Err.ecanceled else none) = some Err.ecanceled := by
  by_cases h : c <;> simp [h]

/-- An item call that is not cancelled at entry and whose bmap lookup
succeeds ends either cleanly or with ECANCELED. -/
theorem xchk_quota_item_err (env : Env) (sqi : QuotaInfo) (dq : XfsDquot)
    (prevCorrupt : Bool) (w : World)
    (hterm : env.shouldTerm w.termCalls = false)
    (hbmap : (xchk_quota_item_bmap env dq (dq.q_id / env.dqperchunk)).2 = none) :
    (xchk_quota_item env sqi dq prevCorrupt w).err = none ∨
    (xchk_quota_item env sqi dq prevCorrupt w).err = some Err.ecanceled := by
  rw [xchk_quota_item_run env sqi dq prevCorrupt w hterm hbmap]
  exact err_ite_cases _

/-- Under a quiet cancellation signal, an error-free bmap collaborator and
a clean iterator end, the record loop ends cleanly or with ECANCELED. -/
theorem xchk_quota_loop_err (env : Env)
    (h1 : ∀ n, env.shouldTerm n = false)
    (h2 : ∀ (d : XfsDquot) (off : Nat), (xchk_quota_item_bmap env d off).2 = none)
    (h5 : env.iterEnd = none) :
    ∀ (records : List XfsDquot) (sqi : QuotaInfo) (prevCorrupt : Bool) (w : World),
      (xchk_quota_loop env sqi prevCorrupt w records).err = none ∨
      (xchk_quota_loop env sqi prevCorrupt w records).err = some Err.ecanceled := by
  intro records
  induction records with
  | nil => intro sqi prevCorrupt w; left; simp [xchk_quota_loop, h5]
  | cons dq rest ih =>
      intro sqi prevCorrupt w
      rcases hre : (xchk_quota_item env sqi dq prevCorrupt w).err with _ | e
      · simpa [xchk_quota_loop, hre] using ih _ _ _
      · have he : e = Err.ecanceled := by
          rcases xchk_quota_item_err env sqi dq prevCorrupt w (h1 _) (h2 _ _)
            with h | h
          · rw [hre] at h; cases h
          · rw [hre] at h; injection h
        subst he
        right
        simp [xchk_quota_loop, hre]

/-- C8: when the data fork is clean and no collaborator fails, the scrub of
any record list returns success, even when a record's Corrupt finding ends
the iteration; once an item call ends with an error, the loop returns that
item's result as is and never touches the remaining records; and within a
nonzero-id record's item call that completes, the timer findings of all
three domains still appear at the very end of the record's finding list, so
a Corrupt finding from an earlier rule does not suppress them. -/
theorem C8_corrupt_stop (env : Env) (w : World) (sqi : QuotaInfo)
    (dq : XfsDquot) (rest : List XfsDquot) (prevCorrupt : Bool) (e : Err)
    (h1 : ∀ n, env.shouldTerm n = false)
    (h2 : ∀ (d : XfsDquot) (off : Nat), (xchk_quota_item_bmap env d off).2 = none)
    (h3 : env.metadata_inode_forks = ([], none))
    (h4 : env.extents.find? (quotaExtentBad (XFS_DQ_ID_MAX / env.dqperchunk)) = none)
    (h5 : env.iterEnd = none) :
    ((xchk_quota env w).err = none) ∧
    ((xchk_quota_item env sqi dq prevCorrupt w).err = some e →
      xchk_quota_loop env sqi prevCorrupt w (dq :: rest) =
        xchk_quota_item env sqi dq prevCorrupt w) ∧
    (dq.q_id ≠ 0 →
      List.IsSuffix
        (xchk_quota_item_timer (dq.q_id / env.dqperchunk) dq.q_blk ++
         xchk_quota_item_timer (dq.q_id / env.dqperchunk) dq.q_ino ++
         xchk_quota_item_timer (dq.q_id / env.dqperchunk) dq.q_rtb)
        (xchk_quota_item env sqi dq prevCorrupt w).findings) := by
  refine ⟨?_, ?_, ?_⟩
  · obtain ⟨hf1, hf2⟩ := xchk_quota_data_fork_loop_run env
      (XFS_DQ_ID_MAX / env.dqperchunk) h1 env.extents w
    rw [h4] at hf1
    rcases xchk_quota_loop_err env h1 h2 h5 env.records ⟨0⟩ false
        (xchk_quota_data_fork_loop env (XFS_DQ_ID_MAX / env.dqperchunk) w
          env.extents).w
      with h | h <;>
      simp [xchk_quota, xchk_quota_data_fork, h3, hf1, hf2, h]
  · intro hitem
    rcases hr : xchk_quota_item env sqi dq prevCorrupt w with ⟨s7, w7, f7, ev7, e7⟩
    rw [hr] at hitem
    replace hitem : e7 = some e := hitem
    subst hitem
    simp [xchk_quota_loop, hr]
  · intro hne
    rw [xchk_quota_item_run env sqi dq prevCorrupt w (h1 _) (h2 _ _)]
    simp only [hne, List.append_assoc, if_neg, ite_false, not_false_eq_true]
    repeat
      first
      | exact List.suffix_rfl
      | refine List.IsSuffix.trans ?_ (List.suffix_append _ _)

/-- Witness for C8: scrubbing a sequence whose first record is corrupt
(soft limit above hard limit) still returns success. -/
theorem C8_corrupt_stop_witness :
    (xchk_quota env8w ⟨0, 0⟩).err = none :=
  (C8_corrupt_stop env8w ⟨0, 0⟩ ⟨0⟩ (dqClean 9) [] false Err.ecanceled
    (fun _ => rfl)
    (fun d off => by
      simp only [xchk_quota_item_bmap]
      split_ifs <;> rfl)
    rfl rfl rfl).1

/-- C9 counterexample: a scrub over two clean records samples the live
inode counter twice, not once; moreover the second record's inode count 150
exceeds the first sample (100), yet no Corrupt finding appears, because the
second record is compared against the second sample (200) instead of the
snapshot the first record used. -/
theorem C9_sampling_counterexample :
    (xchk_quota env9cx ⟨0, 0⟩).w.icountCalls = 2 ∧
    dq9b.q_ino.count > env9cx.icountSamples 0 ∧
    (xchk_quota env9cx ⟨0, 0⟩).findings = [] ∧
    (xchk_quota env9cx ⟨0, 0⟩).err = none := by decide

/-- C9 (amended): the live inode count is sampled once per record - every
item call that passes the backing-extent check advances the sample counter
by exactly one and compares that record's inode count against its own fresh
sample; the block and realtime-block capacities are fixed superblock fields
of the environment and are the same for every record. -/
theorem C9_sampling_amended (env : Env) (sqi : QuotaInfo) (dq : XfsDquot)
    (prevCorrupt : Bool) (w : World)
    (hterm : env.shouldTerm w.termCalls = false)
    (hbmap : (xchk_quota_item_bmap env dq (dq.q_id / env.dqperchunk)).2 = none) :
    ((xchk_quota_item env sqi dq prevCorrupt w).w =
      ⟨w.termCalls + 1, w.icountCalls + 1⟩) ∧
    (dq.q_ino.count > env.icountSamples w.icountCalls →
      Finding.corrupt (dq.q_id / env.dqperchunk) ∈
        (xchk_quota_item env sqi dq prevCorrupt w).findings) := by
  have hrun := xchk_quota_item_run env sqi dq prevCorrupt w hterm hbmap
  constructor
  · rw [hrun]
  · intro hov; rw [hrun]; simp [hov]

/-- Witness for the amended C9: a record whose inode count 2000 exceeds the
sample 1000 is flagged Corrupt, and its item call consumed one sample. -/
theorem C9_sampling_amended_witness :
    Finding.corrupt 3 ∈ (xchk_quota_item env0 ⟨0⟩ dqC9 false ⟨0, 0⟩).findings :=
  (C9_sampling_amended env0 ⟨0⟩ dqC9 false ⟨0, 0⟩ rfl (by decide)).2 (by decide)

/-- C10: when the lookup resolves exactly one mapping whose physical start
block is not a valid filesystem block number, the extent-backing validation
emits a Corrupt finding at the record offset - an extra corruption
condition beyond the five the spec lists - and it does so even when the
block converts to the record's claimed blockNumber and the mapping is fully
written, in which case that finding is the only one. -/
theorem C10_fsbno_check (env : Env) (dq : XfsDquot) (offset : Nat) (irec : Irec)
    (hfile : env.verify_fileoff offset = true)
    (hoff : dq.q_fileoffset = offset)
    (hread : env.bmapi_read offset = Except.ok (some irec))
    (hbad : env.verify_fsbno irec.br_startblock = false) :
    Finding.corrupt offset ∈ (xchk_quota_item_bmap env dq offset).1 ∧
    (env.fsbToDaddr irec.br_startblock = dq.q_blkno → irec.written = true →
      (xchk_quota_item_bmap env dq offset).1 = [Finding.corrupt offset]) := by
  constructor
  · simp [xchk_quota_item_bmap, hfile, hoff, hread, hbad]
  · intro hd hw
    simp [xchk_quota_item_bmap, hfile, hoff, hread, hbad, hd, hw]

/-- Witness for C10: identity block conversion and a written mapping, but
an invalid physical block, yields exactly the one Corrupt finding. -/
theorem C10_fsbno_check_witness :
    (xchk_quota_item_bmap envBadFsbno (dqClean 7) 7).1 = [Finding.corrupt 7] :=
  (C10_fsbno_check envBadFsbno (dqClean 7) 7 ⟨7, 1, 107, true⟩ rfl rfl rfl
    rfl).2 rfl rfl
